import Mathlib

/-!
Verification of the core behaviours of `src/app.py` (a small Flask site:
cached RSS news feed, registration/login sessions, contact form).

The embedding models the external collaborators the way the code uses them:
* the wall clock (`time.time()`) is an explicit integer-seconds argument;
* the feed fetch+parse (`feedparser.parse`) is an oracle argument of type
  `Except Unit (List FeedEntry)`: `.error` is the exception path the code
  catches, `.ok entries` is a parsed feed;
* the Mongo collections are explicit lists of records, and the outcome of
  `insert_one` (raise or succeed) is an explicit boolean argument;
* the Flask `session` dict is a record of the two keys the code uses;
* the SMTP transport outcome is an explicit boolean argument.
-/

namespace App

/-- One entry of a parsed feed, exposing the three `entry.get` fields
`fetch_news` reads (each may be absent). -/
structure FeedEntry where
  title : Option String
  link : Option String
  published : Option String
deriving DecidableEq, Repr

/-- One item placed in the news cache, as built in the loop of `fetch_news`:
`{"title": entry.get("title"), "link": entry.get("link"),
  "published": entry.get("published", "")}`. -/
structure NewsItem where
  title : Option String
  link : Option String
  published : String
deriving DecidableEq, Repr

/-- The dict appended for one feed entry in `fetch_news`. -/
def itemOfEntry (e : FeedEntry) : NewsItem :=
  { title := e.title, link := e.link, published := e.published.getD "" }

/-- The process-wide cache `NEWS_CACHE = {"ts": 0, "items": []}`. `ts` is the
time of the last successful fetch (integer seconds). -/
structure NewsCache where
  ts : Int
  items : List NewsItem
deriving DecidableEq, Repr

/-- The initial value of `NEWS_CACHE`. -/
def initialNewsCache : NewsCache := { ts := 0, items := [] }

/-- `fetch_news()` from `src/app.py`.  Inputs: the TTL `CACHE_TTL`, the
current cache, `now = time.time()`, and the fetch oracle.  Output: the
returned item list, the cache afterwards, and whether a fetch of the feed
source was performed (whether `feedparser.parse` was called).

Mirrors:
```
now = time.time()
if now - NEWS_CACHE["ts"] < CACHE_TTL and NEWS_CACHE["items"]:
    return NEWS_CACHE["items"]
try:
    feed = feedparser.parse(NEWS_FEED_URL)
    items = [... for entry in feed.entries[:8]]
    NEWS_CACHE["ts"] = now
    NEWS_CACHE["items"] = items
    return items
except Exception:
    return []
```
The function is total because the `try` swallows every exception. -/
def fetch_news (cacheTtl : Int) (cache : NewsCache) (now : Int)
    (fetch : Except Unit (List FeedEntry)) :
    List NewsItem × NewsCache × Bool :=
  if now - cache.ts < cacheTtl ∧ cache.items ≠ [] then
    (cache.items, cache, false)
  else
    match fetch with
    | .ok entries =>
        let items := (entries.take 8).map itemOfEntry
        (items, { ts := now, items := items }, true)
    | .error _ => ([], cache, true)

end App

namespace App

/-!
Password hashing.  `src/app.py` delegates to `werkzeug.security`:
`generate_password_hash(password)` (which draws a fresh random salt per call
and returns a `method$salt$digest` string) and
`check_password_hash(stored, password)`.  Both are external collaborators.
Modelled from the spec: a deterministic salted encoding with the salt made
an explicit argument (the model of werkzeug's internal random draw), whose
output is a string distinct from the plaintext and distinct across salts,
and which verifies exactly the original password.  The stored string is
`'#' * salt ++ "$" ++ password-characters`; verification strips the salt
prefix and compares the remainder.
-/

/-- Model of `werkzeug.security.generate_password_hash`, with the
per-call random salt as an explicit argument. -/
def generate_password_hash (salt : Nat) (password : String) : String :=
  ⟨List.replicate salt '#' ++ '$' :: password.data⟩

/-- Character-level verifier: skip the `'#'` salt prefix, then require a
`'$'` followed by exactly the candidate password. -/
def checkHashAux : List Char → List Char → Bool
  | [], _ => false
  | c :: rest, p =>
      if c = '#' then checkHashAux rest p
      else if c = '$' then rest == p
      else false

/-- Model of `werkzeug.security.check_password_hash stored password`. -/
def check_password_hash (stored password : String) : Bool :=
  checkHashAux stored.data password.data

/-- A document of the `users` collection, as inserted by `register`:
`{"username": username, "password": hashed_pw}` together with the
`inserted_id` Mongo assigns to it. -/
structure UserRecord where
  id : Nat
  username : String
  password : String
deriving DecidableEq, Repr

/-- `users_collection.find_one({"username": username})`. -/
def find_one_user (users : List UserRecord) (username : String) :
    Option UserRecord :=
  users.find? (fun u => u.username == username)

/-- The Flask `session` dict, restricted to the two keys the code uses
(`user_id`, `username`); both absent in a fresh session. -/
structure Session where
  user_id : Option String
  username : Option String
deriving DecidableEq, Repr

/-- A request with no session: neither key present. -/
def emptySession : Session := { user_id := none, username := none }

/-- A document of the `contacts` collection, as inserted by `contact`. -/
structure ContactMsg where
  name : String
  email : String
  message : String
  created_at : Int
deriving DecidableEq, Repr

/-- `send_email(subject, body)` from `src/app.py`: returns `False` when the
SMTP credentials are not all configured (mock path), otherwise attempts
delivery and returns `True` on success and `False` when the transport
raises (the `except` branch).  It never raises, so it is a total function
of the configuration and the transport outcome. -/
def send_email (configured smtpOk : Bool) : Bool :=
  if configured then smtpOk else false

/-- User-visible outcome of a POST to `register`. -/
inductive RegisterOutcome
  /-- flash "Username already exists…" (danger), redirect to register. -/
  | duplicateUsername
  /-- flash "Registration successful…" (success), redirect to dashboard. -/
  | success
  /-- `insert_one` raised: flash "Registration failed…" (danger), redirect
  to register. -/
  | insertFailed
deriving DecidableEq, Repr

/-- The POST branch of `register` in `src/app.py`.  Inputs: the `users`
collection, the request's session, the form fields, the salt werkzeug
draws, the id Mongo would assign, and whether `insert_one` succeeds.
Output: the outcome, the collection afterwards, the session afterwards.

Mirrors: `find_one` on the username; if present, reject as duplicate;
otherwise hash the password and `insert_one` the record inside a `try`,
then set `session["user_id"] = str(result.inserted_id)` and
`session["username"] = username` and report success; on a raise, leave the
session alone and report failure.  (The registration notification email is
sent after the session is set and `send_email` never raises, so it does
not affect this state.) -/
def register (users : List UserRecord) (sess : Session)
    (username password : String) (salt : Nat) (newId : Nat)
    (insertOk : Bool) :
    RegisterOutcome × List UserRecord × Session :=
  match find_one_user users username with
  | some _ => (.duplicateUsername, users, sess)
  | none =>
      let hashed_pw := generate_password_hash salt password
      if insertOk then
        (.success,
         users ++ [{ id := newId, username := username, password := hashed_pw }],
         { user_id := some (toString newId), username := some username })
      else
        (.insertFailed, users, sess)

/-- User-visible outcome of a POST to `login`. -/
inductive LoginOutcome
  /-- flash "Logged in successfully." (success), redirect to dashboard. -/
  | success
  /-- flash "Invalid username or password." (danger), redirect to login —
  the single branch covering both an unknown username and a wrong
  password. -/
  | invalidCredentials
deriving DecidableEq, Repr

/-- The POST branch of `login` in `src/app.py`: `find_one` on the username;
if a record exists and `check_password_hash` accepts, set
`session["user_id"] = str(user["_id"])` and
`session["username"] = user["username"]`; otherwise flash the single
"Invalid username or password." message, leaving the session alone. -/
def login (users : List UserRecord) (sess : Session)
    (username password : String) : LoginOutcome × Session :=
  match find_one_user users username with
  | some user =>
      if check_password_hash user.password password then
        (.success,
         { user_id := some (toString user.id), username := some user.username })
      else
        (.invalidCredentials, sess)
  | none => (.invalidCredentials, sess)

/-- `logout` in `src/app.py`: `session.clear()` then redirect home. -/
def logout (_ : Session) : Session :=
  { user_id := none, username := none }

/-- What the `login_required` decorator does with a request. -/
inductive GuardResult
  /-- `"user_id" not in session`: flash the warning and redirect to the
  login page; the wrapped view does not run. -/
  | redirectToLogin
  /-- the wrapped view function runs. -/
  | passThrough
deriving DecidableEq, Repr

/-- The `login_required` decorator in `src/app.py`, applied to the
request's session. -/
def login_required (sess : Session) : GuardResult :=
  if sess.user_id.isSome then .passThrough else .redirectToLogin

/-- The POST branch of `contact` in `src/app.py`.  Inputs: the `contacts`
collection, the form fields and `time.time()`, whether `insert_one`
succeeds, and the mail configuration/transport outcomes.  Output: whether
the user-visible response is the success flash + redirect, and the
collection afterwards.

Mirrors: `insert_one` inside a `try` whose `except` only prints; then
`send_contact_notification` (whose result is ignored and which never
raises); then unconditionally flash "Thanks for reaching out!…" (success)
and redirect. -/
def contact (contacts : List ContactMsg)
    (name email message : String) (now : Int)
    (storageOk configured smtpOk : Bool) :
    Bool × List ContactMsg :=
  let contacts' :=
    if storageOk then
      contacts ++ [{ name := name, email := email, message := message,
                     created_at := now }]
    else contacts
  let _ := send_email configured smtpOk
  (true, contacts')

end App

namespace App

/- Sanity examples (concrete evaluations of the cache model). -/

example :
    fetch_news 3600 initialNewsCache 5
      (.ok [{ title := some "t", link := some "l", published := none }]) =
    ([{ title := some "t", link := some "l", published := "" }],
     { ts := 5, items := [{ title := some "t", link := some "l", published := "" }] },
     true) := by decide

example :
    fetch_news 3600 { ts := 0, items := [{ title := some "t", link := none, published := "p" }] }
      10 (.error ()) =
    ([{ title := some "t", link := none, published := "p" }],
     { ts := 0, items := [{ title := some "t", link := none, published := "p" }] },
     false) := by decide

/-! Contract of the password-hash model (the properties werkzeug documents
for `generate_password_hash` / `check_password_hash`). -/

theorem checkHashAux_replicate (s : Nat) (p q : List Char) :
    checkHashAux (List.replicate s '#' ++ '$' :: p) q = (p == q) := by
  induction s with
  | zero => simp [checkHashAux]
  | succ n ih => simpa [List.replicate_succ, checkHashAux] using ih

/-- The stored hash verifies against the password it was generated from. -/
theorem check_generate (salt : Nat) (p : String) :
    check_password_hash (generate_password_hash salt p) p = true := by
  simp [check_password_hash, generate_password_hash, checkHashAux_replicate]

/-- The stored hash rejects every other password. -/
theorem check_generate_wrong (salt : Nat) (p q : String) (h : p ≠ q) :
    check_password_hash (generate_password_hash salt p) q = false := by
  have hd : p.data ≠ q.data := fun hdq => h (String.ext hdq)
  simp [check_password_hash, generate_password_hash, checkHashAux_replicate, hd]

/-- The stored hash is never the plaintext password. -/
theorem generate_ne_plain (salt : Nat) (p : String) :
    generate_password_hash salt p ≠ p := by
  intro h
  have := congrArg (fun s => s.data.length) h
  simp [generate_password_hash] at this
  omega

/-- Distinct salts give distinct stored hashes for the same password. -/
theorem generate_ne_of_salt_ne (s₁ s₂ : Nat) (p : String) (h : s₁ ≠ s₂) :
    generate_password_hash s₁ p ≠ generate_password_hash s₂ p := by
  intro he
  have := congrArg (fun s => s.data.length) he
  simp [generate_password_hash] at this
  omega

/-- Looking a username up after appending a record with that username finds
the appended record, provided the username was previously unused. -/
theorem find_one_user_append_self (users : List UserRecord) (r : UserRecord)
    (username : String) (h : find_one_user users username = none)
    (hr : r.username = username) :
    find_one_user (users ++ [r]) username = some r := by
  unfold find_one_user at h ⊢
  simp [List.find?_append, h, List.find?, hr]

/-! ## C1 -/

/-- C1, as stated, is false on the code: after a successful fetch at time 0
(cache non-empty), a refresh attempt at time 3600 (the cache has expired,
`CACHE_TTL = 3600`) that fails returns the empty list, not the prior cached
sequence. -/
theorem fetch_news_stale_claim_counterexample :
    (fetch_news 3600 initialNewsCache 0
        (.ok [{ title := some "t", link := some "l", published := some "p" }])).2.1 =
      { ts := 0, items := [{ title := some "t", link := some "l", published := "p" }] } ∧
    ([{ title := some "t", link := some "l", published := "p" }] : List NewsItem) ≠ [] ∧
    ¬ ((3600 : Int) - (0 : Int) < 3600) ∧
    (fetch_news 3600
        { ts := 0, items := [{ title := some "t", link := some "l", published := "p" }] }
        3600 (.error ())).1 = [] ∧
    (fetch_news 3600
        { ts := 0, items := [{ title := some "t", link := some "l", published := "p" }] }
        3600 (.error ())).1 ≠
      [{ title := some "t", link := some "l", published := "p" }] := by
  decide

/-- C1 (amended): if the cache has expired and the refresh attempt fails
after at least one prior successful fetch (cached items non-empty), then
`fetch_news` returns the empty sequence and leaves the prior cached entry
(items and fetched_at) in place unchanged — it does not return the cached
items and it does not raise. -/
theorem fetch_news_stale_refresh_failure (ttl now : Int) (cache : NewsCache)
    (_hne : cache.items ≠ []) (hexp : ¬ now - cache.ts < ttl) :
    fetch_news ttl cache now (.error ()) = ([], cache, true) := by
  simp [fetch_news, hexp]

/-- Witness for `fetch_news_stale_refresh_failure` at a concrete expired
non-empty cache. -/
theorem fetch_news_stale_refresh_failure_witness :
    fetch_news 3600
      { ts := 0, items := [{ title := some "t", link := none, published := "" }] }
      3600 (.error ()) =
    ([], { ts := 0, items := [{ title := some "t", link := none, published := "" }] },
     true) :=
  fetch_news_stale_refresh_failure 3600 3600
    { ts := 0, items := [{ title := some "t", link := none, published := "" }] }
    (by decide) (by decide)

/-! ## C2 -/

/-- C2: when the fetch oracle fails (the `except` path), the cache slot is
left exactly as it was — both `items` and `ts` — so a previously good
non-empty cache is never cleared; and whenever a fetch was actually
performed (cache miss) and failed, the returned sequence is empty.  The
function is total, so nothing is raised to the caller. -/
theorem fetch_news_failure_preserves_cache (ttl now : Int) (cache : NewsCache) :
    (fetch_news ttl cache now (.error ())).2.1 = cache ∧
    ((fetch_news ttl cache now (.error ())).2.2 = true →
      (fetch_news ttl cache now (.error ())).1 = []) := by
  unfold fetch_news
  by_cases h : now - cache.ts < ttl ∧ cache.items ≠ []
  · simp [h]
  · simp [h]

/-- Witness for `fetch_news_failure_preserves_cache`: a concrete expired
call with a failing fetch keeps the old entry and returns `[]`. -/
theorem fetch_news_failure_preserves_cache_witness :
    (fetch_news 3600
        { ts := 0, items := [{ title := some "t", link := none, published := "" }] }
        9999 (.error ())).2.1 =
      { ts := 0, items := [{ title := some "t", link := none, published := "" }] } ∧
    (fetch_news 3600
        { ts := 0, items := [{ title := some "t", link := none, published := "" }] }
        9999 (.error ())).1 = [] :=
  ⟨(fetch_news_failure_preserves_cache 3600 9999
      { ts := 0, items := [{ title := some "t", link := none, published := "" }] }).1,
   (fetch_news_failure_preserves_cache 3600 9999
      { ts := 0, items := [{ title := some "t", link := none, published := "" }] }).2
     (by decide)⟩

/-! ## C5 -/

/-- C5, as stated, is false on the code: after a successful fetch at time 0
whose feed had no entries, a call one second later — well within the TTL of
that successful fetch — performs a second fetch, because the empty cached
item list is never a cache hit. -/
theorem fetch_news_ttl_claim_counterexample :
    (fetch_news 3600 initialNewsCache 0 (.ok [])).2.1 = { ts := 0, items := [] } ∧
    ((1 : Int) - (0 : Int) < 3600) ∧
    (fetch_news 3600 { ts := 0, items := [] } 1 (.ok [])).2.2 = true := by
  decide

/-- C5 (amended): for every cache state with a non-empty item list within
`ttlSeconds` of a successful fetch, two consecutive calls both return the
cached sequence (identical results) and perform no fetch; and a single call
made once the TTL has elapsed performs exactly one fetch, and — when the
fetch succeeds — replaces the cached items and `fetched_at` together with
the freshly parsed items (truncated to 8) and the current time. -/
theorem fetch_news_ttl_behaviour (ttl : Int) (cache : NewsCache) :
    (∀ now₁ now₂ f₁ f₂, cache.items ≠ [] →
      now₁ - cache.ts < ttl → now₂ - cache.ts < ttl →
      fetch_news ttl cache now₁ f₁ = (cache.items, cache, false) ∧
      fetch_news ttl (fetch_news ttl cache now₁ f₁).2.1 now₂ f₂ =
        (cache.items, cache, false)) ∧
    (∀ now entries, ¬ now - cache.ts < ttl →
      fetch_news ttl cache now (.ok entries) =
        ((entries.take 8).map itemOfEntry,
         { ts := now, items := (entries.take 8).map itemOfEntry }, true)) := by
  constructor
  · intro now₁ now₂ f₁ f₂ hne h₁ h₂
    have e₁ : fetch_news ttl cache now₁ f₁ = (cache.items, cache, false) := by
      simp [fetch_news, h₁, hne]
    refine ⟨e₁, ?_⟩
    rw [e₁]
    simp [fetch_news, h₂, hne]
  · intro now entries hexp
    simp [fetch_news, hexp]

/-- Witness for `fetch_news_ttl_behaviour` at a concrete non-empty cache:
two calls at times 1 and 2 hit the cache, and an expired call at time 4000
replaces it. -/
theorem fetch_news_ttl_behaviour_witness :
    (fetch_news 3600
        { ts := 0, items := [{ title := some "t", link := none, published := "" }] }
        1 (.error ()) =
      ([{ title := some "t", link := none, published := "" }],
       { ts := 0, items := [{ title := some "t", link := none, published := "" }] },
       false) ∧
     fetch_news 3600
        (fetch_news 3600
          { ts := 0, items := [{ title := some "t", link := none, published := "" }] }
          1 (.error ())).2.1
        2 (.error ()) =
      ([{ title := some "t", link := none, published := "" }],
       { ts := 0, items := [{ title := some "t", link := none, published := "" }] },
       false)) ∧
    fetch_news 3600
        { ts := 0, items := [{ title := some "t", link := none, published := "" }] }
        4000 (.ok [{ title := some "u", link := none, published := none }]) =
      ([{ title := some "u", link := none, published := "" }],
       { ts := 4000, items := [{ title := some "u", link := none, published := "" }] },
       true) :=
  ⟨(fetch_news_ttl_behaviour 3600
      { ts := 0, items := [{ title := some "t", link := none, published := "" }] }).1
      1 2 (.error ()) (.error ()) (by decide) (by decide) (by decide),
   (fetch_news_ttl_behaviour 3600
      { ts := 0, items := [{ title := some "t", link := none, published := "" }] }).2
      4000 [{ title := some "u", link := none, published := none }] (by decide)⟩

/-! ## C10 -/

/-- C10: an empty cached item list is never a cache hit — whenever
`cache.items = []`, `fetch_news` consults the fetch oracle, even when less
than `ttlSeconds` have elapsed since `ts`. -/
theorem fetch_news_empty_cache_always_fetches (ttl now : Int)
    (cache : NewsCache) (f : Except Unit (List FeedEntry))
    (h : cache.items = []) :
    (fetch_news ttl cache now f).2.2 = true := by
  unfold fetch_news
  rw [if_neg (by simp [h])]
  cases f <;> simp

/-- Witness for `fetch_news_empty_cache_always_fetches`: the initial empty
cache triggers a fetch at time 0, although `0 - 0 < 3600`. -/
theorem fetch_news_empty_cache_always_fetches_witness :
    ((0 : Int) - initialNewsCache.ts < 3600) ∧
    (fetch_news 3600 initialNewsCache 0 (.ok [])).2.2 = true :=
  ⟨by decide,
   fetch_news_empty_cache_always_fetches 3600 0 initialNewsCache (.ok []) (by decide)⟩

/-! ## C3 -/

/-- C3: registering an unused username succeeds, appending exactly one user
record (with the salted hash) and establishing an active session for the
new user; afterwards any further registration attempt with the same
username fails as a duplicate, regardless of the other inputs, and leaves
the collection and the caller's session unchanged. -/
theorem register_unique_username (users : List UserRecord) (sess : Session)
    (username password : String) (salt newId : Nat)
    (hfree : find_one_user users username = none) :
    register users sess username password salt newId true =
      (.success,
       users ++ [{ id := newId, username := username,
                   password := generate_password_hash salt password }],
       { user_id := some (toString newId), username := some username }) ∧
    login_required { user_id := some (toString newId),
                     username := some username } = .passThrough ∧
    (∀ (sess' : Session) (password' : String) (salt' newId' : Nat)
        (insertOk' : Bool),
      register
          (users ++ [{ id := newId, username := username,
                       password := generate_password_hash salt password }])
          sess' username password' salt' newId' insertOk' =
        (.duplicateUsername,
         users ++ [{ id := newId, username := username,
                     password := generate_password_hash salt password }],
         sess')) := by
  have hfound :
      find_one_user
        (users ++ [{ id := newId, username := username,
                     password := generate_password_hash salt password }])
        username =
      some { id := newId, username := username,
             password := generate_password_hash salt password } :=
    find_one_user_append_self users _ username hfree rfl
  refine ⟨by simp [register, hfree], by simp [login_required], ?_⟩
  intro sess' password' salt' newId' insertOk'
  simp [register, hfound]

/-- Witness for `register_unique_username`: registering "alice" in an empty
collection, then attempting to register "alice" again. -/
theorem register_unique_username_witness :
    register [] emptySession "alice" "pw1" 0 1 true =
      (.success,
       [{ id := 1, username := "alice",
          password := generate_password_hash 0 "pw1" }],
       { user_id := some "1", username := some "alice" }) ∧
    register [{ id := 1, username := "alice",
                password := generate_password_hash 0 "pw1" }]
        emptySession "alice" "pw2" 7 2 true =
      (.duplicateUsername,
       [{ id := 1, username := "alice",
          password := generate_password_hash 0 "pw1" }],
       emptySession) :=
  ⟨(register_unique_username [] emptySession "alice" "pw1" 0 1 (by decide)).1,
   (register_unique_username [] emptySession "alice" "pw1" 0 1 (by decide)).2.2
     emptySession "pw2" 7 2 true⟩

/-! ## C4 -/

/-- C4: for a stored user whose password field is the salted hash of
`password`, a login with the correct password succeeds and sets the session
identity to that record's id and username; a login with a wrong password
fails with the invalid-credentials outcome and leaves the session alone;
a login with an unknown username returns the very same result as the
wrong-password case, so the two failure causes are indistinguishable to
the caller. -/
theorem login_behaviour (users : List UserRecord) (sess : Session)
    (u : UserRecord) (username password wrong other any : String)
    (salt : Nat)
    (hu : find_one_user users username = some u)
    (hpw : u.password = generate_password_hash salt password)
    (hwrong : wrong ≠ password)
    (hother : find_one_user users other = none) :
    login users sess username password =
      (.success, { user_id := some (toString u.id),
                   username := some u.username }) ∧
    login users sess username wrong = (.invalidCredentials, sess) ∧
    login users sess other any = (.invalidCredentials, sess) ∧
    login users sess username wrong = login users sess other any := by
  have hok : check_password_hash u.password password = true := by
    rw [hpw]; exact check_generate salt password
  have hbad : check_password_hash u.password wrong = false := by
    rw [hpw]; exact check_generate_wrong salt password wrong (Ne.symm hwrong)
  refine ⟨by simp [login, hu, hok], by simp [login, hu, hbad],
          by simp [login, hother], ?_⟩
  simp [login, hu, hbad, hother]

/-- Witness for `login_behaviour`: one stored user "alice" with hashed
"pw1"; correct login succeeds, "bad" fails, unknown "bob" fails
identically. -/
theorem login_behaviour_witness :
    login [{ id := 1, username := "alice",
             password := generate_password_hash 0 "pw1" }]
        emptySession "alice" "pw1" =
      (.success, { user_id := some "1", username := some "alice" }) ∧
    login [{ id := 1, username := "alice",
             password := generate_password_hash 0 "pw1" }]
        emptySession "alice" "bad" = (.invalidCredentials, emptySession) ∧
    login [{ id := 1, username := "alice",
             password := generate_password_hash 0 "pw1" }]
        emptySession "bob" "pw1" = (.invalidCredentials, emptySession) :=
  ⟨(login_behaviour [{ id := 1, username := "alice", password := generate_password_hash 0 "pw1" }] emptySession ({ id := 1, username := "alice", password := generate_password_hash 0 "pw1" }) "alice" "pw1" "bad" "bob" "pw1" 0
      (by decide) rfl (by decide) (by decide)).1,
   (login_behaviour [{ id := 1, username := "alice", password := generate_password_hash 0 "pw1" }] emptySession ({ id := 1, username := "alice", password := generate_password_hash 0 "pw1" }) "alice" "pw1" "bad" "bob" "pw1" 0
      (by decide) rfl (by decide) (by decide)).2.1,
   (login_behaviour [{ id := 1, username := "alice", password := generate_password_hash 0 "pw1" }] emptySession ({ id := 1, username := "alice", password := generate_password_hash 0 "pw1" }) "alice" "pw1" "bad" "bob" "pw1" 0
      (by decide) rfl (by decide) (by decide)).2.2.1⟩

/-! ## C6 -/

/-- C6: each successful registration stores the salted hash of the
password (never the plaintext), and two registrations under distinct
usernames with the same plaintext password — each call drawing its own
fresh salt, so the two salts differ — store different hash strings. -/
theorem register_stores_salted_hash (users : List UserRecord)
    (sess₁ sess₂ : Session) (u₁ u₂ pw : String)
    (salt₁ salt₂ id₁ id₂ : Nat)
    (hsalt : salt₁ ≠ salt₂)
    (h₁ : find_one_user users u₁ = none)
    (h₂ : find_one_user
        (users ++ [{ id := id₁, username := u₁,
                     password := generate_password_hash salt₁ pw }]) u₂ =
      none) :
    (register users sess₁ u₁ pw salt₁ id₁ true).2.1 =
      users ++ [{ id := id₁, username := u₁,
                  password := generate_password_hash salt₁ pw }] ∧
    (register
        (users ++ [{ id := id₁, username := u₁,
                     password := generate_password_hash salt₁ pw }])
        sess₂ u₂ pw salt₂ id₂ true).2.1 =
      users ++ [{ id := id₁, username := u₁,
                  password := generate_password_hash salt₁ pw }] ++
        [{ id := id₂, username := u₂,
           password := generate_password_hash salt₂ pw }] ∧
    generate_password_hash salt₁ pw ≠ pw ∧
    generate_password_hash salt₂ pw ≠ pw ∧
    generate_password_hash salt₁ pw ≠ generate_password_hash salt₂ pw :=
  ⟨by simp [register, h₁], by simp [register, h₂],
   generate_ne_plain salt₁ pw, generate_ne_plain salt₂ pw,
   generate_ne_of_salt_ne salt₁ salt₂ pw hsalt⟩

/-- Witness for `register_stores_salted_hash`: "alice" and "bob" both
register with password "pw", salts 0 and 1. -/
theorem register_stores_salted_hash_witness :
    (register [] emptySession "alice" "pw" 0 1 true).2.1 =
      [{ id := 1, username := "alice",
         password := generate_password_hash 0 "pw" }] ∧
    generate_password_hash 0 "pw" ≠ "pw" ∧
    generate_password_hash 0 "pw" ≠ generate_password_hash 1 "pw" :=
  ⟨(register_stores_salted_hash [] emptySession emptySession "alice" "bob"
      "pw" 0 1 1 2 (by decide) (by decide) (by decide)).1,
   (register_stores_salted_hash [] emptySession emptySession "alice" "bob"
      "pw" 0 1 1 2 (by decide) (by decide) (by decide)).2.2.1,
   (register_stores_salted_hash [] emptySession emptySession "alice" "bob"
      "pw" 0 1 1 2 (by decide) (by decide) (by decide)).2.2.2.2⟩

/-! ## C7 -/

/-- C7: the `login_required` guard redirects every request whose session
carries no `user_id` to the login page; it passes through a request whose
session was produced by a successful `register` or a successful `login`;
and after `logout` (which clears the session) every guarded operation is
redirected again. -/
theorem login_required_guard (users lusers : List UserRecord)
    (sess sess₀ lsess : Session) (username password lusername lpassword : String)
    (salt newId : Nat) (ok : Bool)
    (hnos : sess₀.user_id = none)
    (hreg : (register users sess username password salt newId ok).1 = .success)
    (hlog : (login lusers lsess lusername lpassword).1 = .success) :
    login_required sess₀ = .redirectToLogin ∧
    login_required (register users sess username password salt newId ok).2.2 =
      .passThrough ∧
    login_required (login lusers lsess lusername lpassword).2 = .passThrough ∧
    (∀ s : Session, login_required (logout s) = .redirectToLogin) := by
  refine ⟨by simp [login_required, hnos], ?_, ?_,
          fun s => by simp [login_required, logout]⟩
  · cases hfind : find_one_user users username with
    | some u => simp [register, hfind] at hreg
    | none =>
        cases ok with
        | false => simp [register, hfind] at hreg
        | true => simp [register, hfind, login_required]
  · cases hfind : find_one_user lusers lusername with
    | none => simp [login, hfind] at hlog
    | some u =>
        cases hchk : check_password_hash u.password lpassword with
        | false => simp [login, hfind, hchk] at hlog
        | true => simp [login, hfind, hchk, login_required]

/-- Witness for `login_required_guard`: a fresh session is redirected, the
sessions made by registering and by logging in "alice" pass, and the
cleared session after logout is redirected. -/
theorem login_required_guard_witness :
    login_required emptySession = .redirectToLogin ∧
    login_required (register [] emptySession "alice" "pw" 0 1 true).2.2 =
      .passThrough ∧
    login_required
        (login [{ id := 1, username := "alice",
                  password := generate_password_hash 0 "pw" }]
          emptySession "alice" "pw").2 = .passThrough ∧
    (∀ s : Session, login_required (logout s) = .redirectToLogin) :=
  login_required_guard [] [{ id := 1, username := "alice", password := generate_password_hash 0 "pw" }]
    emptySession emptySession emptySession "alice" "pw" "alice" "pw" 0 1 true
    (by decide) (by decide) (by decide)

/-! ## C8 -/

/-- C8: a contact-form submission always produces the user-visible success
outcome (the success flash and redirect), whatever the storage and mail
outcomes are; the message is persisted exactly when the insert succeeded,
and neither a storage failure nor a mail failure propagates (the model is a
total function). -/
theorem contact_always_reports_success (contacts : List ContactMsg)
    (name email message : String) (now : Int)
    (storageOk configured smtpOk : Bool) :
    (contact contacts name email message now storageOk configured smtpOk).1 =
      true ∧
    (contact contacts name email message now storageOk configured smtpOk).2 =
      (if storageOk then
        contacts ++ [{ name := name, email := email, message := message,
                       created_at := now }]
      else contacts) := by
  constructor <;> simp [contact]

/-! ## C9 -/

/-- C9: when the user insert raises during `register` (and the username was
in fact unused, so the duplicate check passed), the outcome is the failure
flash + redirect, the collection is unchanged, and — decisively — the
session is exactly the one the request arrived with: no session is
established. -/
theorem register_insert_failure_no_session (users : List UserRecord)
    (sess : Session) (username password : String) (salt newId : Nat)
    (hfree : find_one_user users username = none) :
    register users sess username password salt newId false =
      (.insertFailed, users, sess) := by
  simp [register, hfree]

/-- Witness for `register_insert_failure_no_session`: a failing insert for
"alice" on an empty collection, arriving with an empty session. -/
theorem register_insert_failure_no_session_witness :
    register [] emptySession "alice" "pw" 0 1 false =
      (.insertFailed, [], emptySession) :=
  register_insert_failure_no_session [] emptySession "alice" "pw" 0 1
    (by decide)

end App
